import Mathlib

/-!
Verification of the betmoto crash-betting engine (`betting_app/views.py`,
`betting_app/models.py`) against its natural-language specification.

The Python code is shallowly embedded: Django `Decimal` values become `ℚ`,
the global `random` stream becomes an explicit list of pre-determined draws,
and each HTTP view / engine method becomes a pure state-transition function
on a record of the fields it reads and writes.  Database writes inside one
`transaction.atomic()` block are modelled as a single atomic state update,
matching the serializable interleaving semantics the views rely on.
-/

namespace Betmoto

/-- Bet status values of `AviatorBet.BET_STATUS` (models.py 134-140). -/
inductive BetStatus
  | active
  | won
  | lost
  | cashed_out
  | cancelled
deriving DecidableEq

/-- Round status values of `AviatorGame.GAME_STATUS` (models.py 100-106). -/
inductive RoundStatus
  | waiting
  | betting
  | flying
  | crashed
  | completed
deriving DecidableEq

/-- Machine-readable rejection reasons returned by the JSON endpoints
(`place_bet` and `cash_out`, views.py 333-476). -/
inductive Err
  | minBet
  | insufficientBalance
  | noBettingRound
  | duplicateBet
  | noActiveGame
  | noActiveBet
  | alreadyCrashed
deriving DecidableEq

/-- Result of a JSON endpoint: success with the returned amount, or a
rejection. -/
inductive Res
  | ok (amount : ℚ)
  | err (e : Err)
deriving DecidableEq

/-- Whether a result is a rejection. -/
def Res.isErr : Res → Bool
  | .ok _ => false
  | .err _ => true

/-- One draw from the modelled pseudo-random stream (`random.random()`):
the ambient generator state is the list of values in `[0,1)` it will
produce next; an exhausted stream yields 0. -/
def randNext : List ℚ → ℚ × List ℚ
  | [] => (0, [])
  | r :: rs => (r, rs)

/-- Python `round(x, 2)` (round-half-to-even) on exact rationals. -/
def pyRound2 (q : ℚ) : ℚ :=
  let n : ℤ := ⌊q * 100⌋
  let frac : ℚ := q * 100 - n
  if frac < 1/2 then (n : ℚ) / 100
  else if 1/2 < frac then ((n : ℚ) + 1) / 100
  else if n % 2 = 0 then (n : ℚ) / 100 else ((n : ℚ) + 1) / 100

/-- Crash multiplier and flight duration computed by `end_betting_phase`
(views.py 597-616) from the stream the call `random.seed(game.seed)` put in
place: one draw selects the band, a second draw interpolates inside it, and
`flight_duration = min(crash_multiplier * 2, 60)`. -/
def ebCrashPoint (s : List ℚ) : ℚ × ℚ :=
  let rand_val := (randNext s).1
  let s1 := (randNext s).2
  let r := (randNext s1).1
  let crash :=
    if rand_val < 33/100 then pyRound2 (1 + r * 1)
    else if rand_val < 66/100 then pyRound2 (2 + r * 8)
    else pyRound2 (10 + r * 90)
  (crash, min (crash * 2) 60)

/-- The `end_betting_phase` generator with the ambient PRNG state made
explicit: the code first executes `random.seed(game.seed)`, which replaces
the ambient state with the stream determined by the seed alone, so the
`ambient` argument is discarded (views.py 597). -/
def ebGenerate (seedFn : String → List ℚ) (_ambient : List ℚ) (seed : String) : ℚ × ℚ :=
  ebCrashPoint (seedFn seed)

/-- `GameEngine._calculate_crash_point` (views.py 982-1007).  It draws from
the ambient global PRNG stream (there is no `random.seed` call in the
`GameEngine` path); `houseEdge` is the configured percentage.  Returns
`(crash_multiplier, flight_time, rest of stream)`, where the returned
flight time is `max(flight_time, 1.0)`. -/
def calcCrashPoint (houseEdge : ℚ) (s : List ℚ) : ℚ × ℚ × List ℚ :=
  let he := houseEdge / 100
  let rand := (randNext s).1
  let s1 := (randNext s).2
  let r := (randNext s1).1
  let s2 := (randNext s1).2
  if rand < 1/2 + he then
    let crash := pyRound2 (1 + r * (3/2))
    (crash, max (crash * (4/5)) 1, s2)
  else if rand < 4/5 + he/2 then
    let crash := pyRound2 (5/2 + r * 5)
    (crash, max (crash * (3/5)) 1, s2)
  else if rand < 19/20 + he/4 then
    let crash := pyRound2 (15/2 + r * 15)
    (crash, max (crash * (2/5)) 1, s2)
  else
    let crash := pyRound2 (45/2 + r * (155/2))
    (crash, max (crash * (3/10)) 1, s2)

/-- `GameEngine._calculate_current_multiplier` (views.py 1009-1016). -/
def calcCurrentMultiplier (elapsed target flight : ℚ) : ℚ :=
  if flight ≤ elapsed then target
  else 1 + (target - 1) * (elapsed / flight)

/-- Observable fields of an `AviatorGame` row relevant to the crash
multiplier lifecycle (models.py 98-123). -/
structure RoundRec where
  status : RoundStatus
  multiplier : Option ℚ
deriving DecidableEq

/-- `end_betting_phase` (views.py 587-621) as the list of row states that
its two `game.save()` calls publish in order: the first save stores status
`flying` with the multiplier field untouched (views.py 591-593); only the
second save, after the crash point is generated, stores the multiplier
(views.py 614-616). -/
def end_betting_phase (seedFn : String → List ℚ) (g : RoundRec) (seed : String) :
    List RoundRec :=
  let g1 : RoundRec := { g with status := .flying }
  let crash := (ebCrashPoint (seedFn seed)).1
  let g2 : RoundRec := { g1 with multiplier := some crash }
  [g1, g2]

/-- Fields of an `AviatorBet` row used by the engine (models.py 132-171). -/
structure Bet where
  amount : ℚ              -- bet_amount
  autoAt : Option ℚ       -- auto_cash_out_at
  status : BetStatus
  cashOutMult : Option ℚ  -- cash_out_multiplier
  payout : ℚ              -- payout_amount (default 0.00)
deriving DecidableEq

/-- One user's view of the engine state: the single live round, the user's
bet in it (`unique_together ['user', 'game']` allows at most one), the
user's wallet balance, and the user's `bet` / `win` transaction counts.
`UserGameStatistics` bookkeeping is read by no claim and is not modelled. -/
structure GameState where
  roundStatus : RoundStatus
  multiplier : Option ℚ   -- AviatorGame.multiplier
  bet : Option Bet
  balance : ℚ             -- Wallet.balance
  betTx : ℕ               -- committed Transaction rows with type 'bet'
  winTx : ℕ               -- committed Transaction rows with type 'win'
deriving DecidableEq

/-- The bet's status, when a bet exists. -/
def betSt (s : GameState) : Option BetStatus := s.bet.map Bet.status

/-- Default `GameSettings.min_bet_amount` (models.py 579-583). -/
def defaultMinBet : ℚ := 1

/-- Default `GameSettings.max_bet_amount` (models.py 584-588). -/
def defaultMaxBet : ℚ := 10000

/-- `place_bet` (views.py 333-396).  The checks run in source order:
hardcoded 1.00 minimum, balance, a round in the betting phase, no existing
bet; on success, the wallet debit, the bet row and the `bet` transaction
commit in one `transaction.atomic()` block.  The stored `auto_cash_out_at`
follows Python truthiness: `Decimal(str(auto_cash_out)) if auto_cash_out
else None` (views.py 375). -/
def place_bet (amount : ℚ) (auto : Option ℚ) (s : GameState) : GameState × Res :=
  if amount < 1 then (s, .err .minBet)
  else if s.balance < amount then (s, .err .insufficientBalance)
  else if s.roundStatus ≠ .betting then (s, .err .noBettingRound)
  else if s.bet.isSome then (s, .err .duplicateBet)
  else
    let stored : Option ℚ := match auto with
      | some a => if a = 0 then none else some a
      | none => none
    ({ s with balance := s.balance - amount,
              bet := some { amount := amount, autoAt := stored, status := .active,
                            cashOutMult := none, payout := 0 },
              betTx := s.betTx + 1 }, .ok amount)

/-- `cash_out` (views.py 402-476).  `m` is the client-supplied multiplier.
The crash guard mirrors the Python truthiness test
`if current_game.multiplier and current_multiplier > current_game.multiplier`
(views.py 426): it fires only when the stored multiplier is non-null (and
nonzero) and the requested multiplier exceeds it.  On success the bet
update, wallet credit and `win` transaction commit atomically. -/
def cash_out (m : ℚ) (s : GameState) : GameState × Res :=
  if s.roundStatus ≠ .flying then (s, .err .noActiveGame)
  else
    match s.bet with
    | none => (s, .err .noActiveBet)
    | some b =>
      if b.status ≠ .active then (s, .err .noActiveBet)
      else
        let crashed : Bool := match s.multiplier with
          | some c => decide (c ≠ 0) && decide (c < m)
          | none => false
        if crashed then (s, .err .alreadyCrashed)
        else
          let payout := b.amount * m
          ({ s with bet := some { b with status := .cashed_out,
                                         cashOutMult := some m,
                                         payout := payout },
                    balance := s.balance + payout,
                    winTx := s.winTx + 1 }, .ok payout)

/-- `GameEngine._process_auto_cashouts` plus `_process_cashout`
(views.py 1018-1065), restricted to the single modelled bet: an active bet
whose `auto_cash_out_at` is set and `≤` the current multiplier is settled
as `won` at `auto_cash_out_at`, crediting the wallet and recording a `win`
transaction in one atomic block. -/
def process_auto_cashouts (m : ℚ) (s : GameState) : GameState :=
  match s.bet with
  | some b =>
    match b.autoAt with
    | some a =>
      if b.status = .active ∧ a ≤ m then
        let payout := b.amount * a
        { s with bet := some { b with status := .won, cashOutMult := some a,
                                      payout := payout },
                 balance := s.balance + payout,
                 winTx := s.winTx + 1 }
      else s
    | none => s
  | none => s

/-- `crash_game` (views.py 624-717) for the single modelled bet: the round
is saved as `crashed`; a still-active bet whose `auto_cash_out_at` is set
(truthy) and `≤ game.multiplier` is settled as `won` at `auto_cash_out_at`
with a wallet credit and a `win` transaction, otherwise it becomes `lost`
with its `payout_amount` untouched; finally the round is saved as
`completed`.  When the stored multiplier is `None` and the bet has a truthy
auto-cashout value, the Python comparison `Decimal <= None` raises, the
`except` handler returns, and only the `crashed` status save survives. -/
def crash_game (s : GameState) : GameState :=
  let s1 := { s with roundStatus := RoundStatus.crashed }
  match s1.bet with
  | none => { s1 with roundStatus := .completed }
  | some b =>
    if b.status ≠ .active then { s1 with roundStatus := .completed }
    else
      match b.autoAt, s1.multiplier with
      | some a, some c =>
        if a ≠ 0 ∧ a ≤ c then
          let payout := b.amount * a
          { s1 with bet := some { b with status := .won, cashOutMult := some a,
                                         payout := payout },
                    balance := s1.balance + payout,
                    winTx := s1.winTx + 1,
                    roundStatus := .completed }
        else
          { s1 with bet := some { b with status := .lost }, roundStatus := .completed }
      | some a, none =>
        if a ≠ 0 then s1
        else { s1 with bet := some { b with status := .lost }, roundStatus := .completed }
      | none, _ =>
        { s1 with bet := some { b with status := .lost }, roundStatus := .completed }

/-- `GameEngine._start_flying_phase` (views.py 972-980): only the status
changes; no crash multiplier is stored. -/
def start_flying_phase (s : GameState) : GameState :=
  { s with roundStatus := .flying }

/-- `GameEngine._crash_game` (views.py 1067-1125): stores the crash
multiplier, saves the round as `crashed`, marks every still-active bet
`lost` (bets whose threshold was reached were already settled tick by tick
by `_process_auto_cashouts`), and saves the round as `completed`, all in
one atomic block. -/
def engine_crash_game (c : ℚ) (s : GameState) : GameState :=
  let s1 := { s with roundStatus := RoundStatus.crashed, multiplier := some c }
  match s1.bet with
  | some b =>
    if b.status = .active then
      { s1 with bet := some { b with status := .lost }, roundStatus := .completed }
    else { s1 with roundStatus := .completed }
  | none => { s1 with roundStatus := .completed }

/-- The settlement operations quantified over by the exactly-once claim:
manual cash-out requests, auto-cashout ticks, and the two crash sweeps. -/
inductive SettleOp
  | manual (m : ℚ)
  | tick (m : ℚ)
  | sweep
  | engineSweep (c : ℚ)
deriving DecidableEq

/-- Apply one settlement operation to the state. -/
def applySettleOp : SettleOp → GameState → GameState
  | .manual m, s => (cash_out m s).1
  | .tick m, s => process_auto_cashouts m s
  | .sweep, s => crash_game s
  | .engineSweep c, s => engine_crash_game c s

/-- Run a sequence of settlement operations. -/
def runSettleOps : List SettleOp → GameState → GameState
  | [], s => s
  | op :: ops, s => runSettleOps ops (applySettleOp op s)

/-- Trace invariant behind the exactly-once settlement guarantee: at most
one `win` credit has been committed, a still-active bet has not been
credited, a completed round holds no active bet, and the bet is in one of
the four statuses the engine produces. -/
def SettleInv (s : GameState) : Prop :=
  s.winTx ≤ 1
    ∧ (betSt s = some .active → s.winTx = 0)
    ∧ (s.roundStatus = .completed → betSt s ≠ some .active)
    ∧ (betSt s = some .active ∨ betSt s = some .won ∨ betSt s = some .lost
        ∨ betSt s = some .cashed_out)

lemma ebCrashPoint_snd (s : List ℚ) :
    (ebCrashPoint s).2 = min ((ebCrashPoint s).1 * 2) 60 := rfl

/-- C7 counterexample: `GameEngine._calculate_crash_point` never executes
`random.seed`, so its result depends on the ambient global PRNG stream and
not on the round's seed.  Two evaluations with the same house edge (3%) and
the same (unused) seed, at two different ambient stream states, return
different `(crash_multiplier, flight_time)` pairs, so the generated pair is
not reproducible from the seed. -/
theorem engine_crash_point_not_seed_deterministic :
    ¬ ((calcCrashPoint 3 [1/10, 149/150]).1 = (calcCrashPoint 3 [3/5, 1/500]).1
        ∧ (calcCrashPoint 3 [1/10, 149/150]).2.1 = (calcCrashPoint 3 [3/5, 1/500]).2.1) := by
  norm_num [calcCrashPoint, randNext, pyRound2]

/-- C7 amended: the `end_betting_phase` generator is the one that is
deterministic in the seed.  It begins with `random.seed(game.seed)`, which
replaces the ambient generator state, so its `(crashMultiplier,
flightDuration)` result is the same function of the seed regardless of the
ambient stream (the configured house edge is not consulted on this path). -/
theorem eb_generator_seed_deterministic (seedFn : String → List ℚ)
    (a1 a2 : List ℚ) (seed : String) :
    ebGenerate seedFn a1 seed = ebGenerate seedFn a2 seed := rfl

/-- C8 counterexample: `GameEngine._calculate_crash_point` multiplies the
crash multiplier by a band factor that shrinks from 0.8 to 0.3 as the band
rises, so flight time is not monotone in the multiplier: a 2.49x crash
(low band) flies for 1.992s while a 2.51x crash (next band) flies for only
1.506s; its only clamp is the 1-second floor `max(flight_time, 1.0)`. -/
theorem engine_flight_time_not_monotone :
    (calcCrashPoint 3 [1/10, 149/150]).1 < (calcCrashPoint 3 [3/5, 1/500]).1
      ∧ (calcCrashPoint 3 [3/5, 1/500]).2.1 < (calcCrashPoint 3 [1/10, 149/150]).2.1 := by
  norm_num [calcCrashPoint, randNext, pyRound2]

/-- C8 amended: the monotone, maximum-clamped flight duration holds for the
`end_betting_phase` generator, whose duration is
`min(crash_multiplier * 2, 60)`: among its generated results a larger crash
multiplier yields a flight duration at least as long, and the duration
never exceeds the (hardcoded) 60-second maximum. -/
theorem eb_flight_duration_monotone_and_capped (t1 t2 : List ℚ)
    (h : (ebCrashPoint t1).1 ≤ (ebCrashPoint t2).1) :
    (ebCrashPoint t1).2 ≤ (ebCrashPoint t2).2 ∧ (ebCrashPoint t1).2 ≤ 60 := by
  rw [ebCrashPoint_snd, ebCrashPoint_snd]
  exact ⟨min_le_min (by linarith) le_rfl, min_le_right _ _⟩

theorem eb_flight_duration_monotone_and_capped_witness :
    (ebCrashPoint [1/10, 1/2]).1 ≤ (ebCrashPoint [2/5, 1/2]).1
      ∧ ((ebCrashPoint [1/10, 1/2]).2 ≤ (ebCrashPoint [2/5, 1/2]).2
          ∧ (ebCrashPoint [1/10, 1/2]).2 ≤ 60) :=
  ⟨by norm_num [ebCrashPoint, randNext, pyRound2],
   eb_flight_duration_monotone_and_capped [1/10, 1/2] [2/5, 1/2]
     (by norm_num [ebCrashPoint, randNext, pyRound2])⟩

/-- C9: `_calculate_current_multiplier` returns the target once
`elapsed ≥ flight_time`, otherwise the linear interpolation
`1 + (target - 1) * elapsed / flight_time`; under the claim's preconditions
it stays within `[1, target]` and is monotone non-decreasing in the elapsed
time.  It is a plain function of its three arguments. -/
theorem multiplier_clock_spec (e t f e2 : ℚ)
    (he : 0 ≤ e) (ht : 1 ≤ t) (hf : 0 < f) (he2 : e ≤ e2) :
    (f ≤ e → calcCurrentMultiplier e t f = t)
      ∧ (e < f → calcCurrentMultiplier e t f = 1 + (t - 1) * (e / f))
      ∧ 1 ≤ calcCurrentMultiplier e t f
      ∧ calcCurrentMultiplier e t f ≤ t
      ∧ calcCurrentMultiplier e t f ≤ calcCurrentMultiplier e2 t f := by
  unfold calcCurrentMultiplier
  have h01 : 0 ≤ t - 1 := by linarith
  have hd1 : 0 ≤ e / f := div_nonneg he hf.le
  have hd2 : e / f ≤ e2 / f := by gcongr
  refine ⟨fun hfe => if_pos hfe, fun hef => if_neg (not_le.mpr hef), ?_, ?_, ?_⟩
  · split_ifs with h1
    · linarith
    · have := mul_nonneg h01 hd1
      linarith
  · split_ifs with h1
    · exact le_rfl
    · have hlt : e / f < 1 := (div_lt_one hf).mpr (lt_of_not_le h1)
      have := mul_le_mul_of_nonneg_left hlt.le h01
      linarith
  · split_ifs with h1 h2
    · exact le_rfl
    · exact absurd (le_trans h1 he2) h2
    · have hlt : e / f < 1 := (div_lt_one hf).mpr (lt_of_not_le h1)
      have := mul_le_mul_of_nonneg_left hlt.le h01
      linarith
    · have := mul_le_mul_of_nonneg_left hd2 h01
      linarith

theorem multiplier_clock_spec_witness :
    (0:ℚ) ≤ 1 ∧ (1:ℚ) ≤ 3 ∧ (0:ℚ) < 2 ∧ (1:ℚ) ≤ 5
      ∧ (((2:ℚ) ≤ 1 → calcCurrentMultiplier 1 3 2 = 3)
          ∧ ((1:ℚ) < 2 → calcCurrentMultiplier 1 3 2 = 1 + (3 - 1) * (1 / 2))
          ∧ 1 ≤ calcCurrentMultiplier 1 3 2
          ∧ calcCurrentMultiplier 1 3 2 ≤ 3
          ∧ calcCurrentMultiplier 1 3 2 ≤ calcCurrentMultiplier 5 3 2) :=
  ⟨by norm_num, by norm_num, by norm_num, by norm_num,
   multiplier_clock_spec 1 3 2 5 (by norm_num) (by norm_num) (by norm_num) (by norm_num)⟩

/-- C3 counterexample: the stored crash multiplier is not assigned before
the flying phase is observable, and the crash transition is not
multiplier-preserving.  `end_betting_phase`'s first `save` publishes the
round as `flying` with the multiplier still null, and
`GameEngine._crash_game` itself assigns the multiplier at crash time. -/
theorem crash_multiplier_not_set_before_flying :
    (end_betting_phase (fun _ => [1/10, 1/2]) ⟨.betting, none⟩ "seed").head?
        = some ⟨.flying, none⟩
      ∧ (engine_crash_game 2 ⟨.flying, none, none, 0, 0, 0⟩).multiplier
          ≠ (⟨.flying, none, none, 0, 0, 0⟩ : GameState).multiplier := by
  refine ⟨rfl, ?_⟩
  simp [engine_crash_game]

/-- C3 amended: the stored crash multiplier is assigned exactly once and
never changed after assignment, but not before the flying phase:
`end_betting_phase` first saves status `flying` with the multiplier
untouched and only its second save stores the generated value, while in
the `GameEngine` path `_start_flying_phase` stores nothing and the crash
transition `_crash_game` is precisely the assignment; the standalone
`crash_game` sweep never modifies the stored multiplier. -/
theorem crash_multiplier_set_once_after_flying
    (seedFn : String → List ℚ) (g : RoundRec) (seed : String)
    (s t : GameState) (c : ℚ) (hg : g.multiplier = none) :
    end_betting_phase seedFn g seed
        = [⟨.flying, none⟩, ⟨.flying, some (ebCrashPoint (seedFn seed)).1⟩]
      ∧ (crash_game s).multiplier = s.multiplier
      ∧ (start_flying_phase t).multiplier = t.multiplier
      ∧ (engine_crash_game c t).multiplier = some c := by
  refine ⟨?_, ?_, ?_, ?_⟩
  · obtain ⟨st, mult⟩ := g
    simp only [RoundRec.multiplier] at hg
    subst hg
    rfl
  · obtain ⟨rs, mult, bet, bal, btx, wtx⟩ := s
    rcases bet with _ | ⟨am, au, st, cm, po⟩
    · rfl
    · rcases au with _ | a <;> rcases mult with _ | cc <;> cases st <;>
        simp [crash_game] <;> split_ifs <;> rfl
  · rfl
  · obtain ⟨rs, mult, bet, bal, btx, wtx⟩ := t
    rcases bet with _ | ⟨am, au, st, cm, po⟩
    · rfl
    · cases st <;> simp [engine_crash_game]

theorem crash_multiplier_set_once_after_flying_witness :
    (⟨RoundStatus.betting, none⟩ : RoundRec).multiplier = none
      ∧ (end_betting_phase (fun _ => [1/10, 1/2]) ⟨.betting, none⟩ "seed"
            = [⟨.flying, none⟩,
               ⟨.flying, some (ebCrashPoint ((fun _ => [(1:ℚ)/10, 1/2]) "seed")).1⟩]
          ∧ (crash_game ⟨.flying, some 2, none, 50, 0, 0⟩).multiplier
              = (⟨.flying, some 2, none, 50, 0, 0⟩ : GameState).multiplier
          ∧ (start_flying_phase ⟨.betting, none, none, 50, 0, 0⟩).multiplier
              = (⟨.betting, none, none, 50, 0, 0⟩ : GameState).multiplier
          ∧ (engine_crash_game 3 ⟨.betting, none, none, 50, 0, 0⟩).multiplier = some 3) :=
  ⟨rfl, crash_multiplier_set_once_after_flying (fun _ => [1/10, 1/2]) ⟨.betting, none⟩
    "seed" ⟨.flying, some 2, none, 50, 0, 0⟩ ⟨.betting, none, none, 50, 0, 0⟩ 3 rfl⟩

/-- C4 counterexample: in the `GameEngine` flow the round flies with a null
stored multiplier (`_start_flying_phase` stores nothing until the crash),
so `cash_out`'s guard `if current_game.multiplier and current_multiplier >
current_game.multiplier` never fires: with the engine's crash point at
2.00x (held only in an engine-local variable), a request claiming 100.00x
is accepted and paid out at 100.00x instead of being rejected. -/
theorem stale_multiplier_accepted_when_unstored :
    (100:ℚ) > 2
      ∧ (cash_out 100 ⟨.flying, none, some ⟨20, none, .active, none, 0⟩, 80, 1, 0⟩).2
          = .ok 2000
      ∧ ((cash_out 100 ⟨.flying, none, some ⟨20, none, .active, none, 0⟩, 80, 1, 0⟩).1).balance
          = 2080 := by
  refine ⟨by norm_num, ?_, ?_⟩ <;> norm_num [cash_out]

/-- C4 amended: the stale-multiplier rejection only applies when the
round's multiplier field is non-null (as in the `end_betting_phase` flow,
which stores it at flight start): then a requested multiplier above it is
rejected with no state change.  When the field is null (the `GameEngine`
flow during flight) `cash_out` accepts any requested multiplier and
computes the payout from it. -/
theorem cash_out_guard_requires_stored_multiplier
    (s t : GameState) (b b2 : Bet) (c m m2 : ℚ)
    (hfly : s.roundStatus = .flying) (hb : s.bet = some b) (hact : b.status = .active)
    (hm : s.multiplier = some c) (hc : c ≠ 0) (hgt : c < m)
    (hfly2 : t.roundStatus = .flying) (hb2 : t.bet = some b2) (hact2 : b2.status = .active)
    (hm2 : t.multiplier = none) :
    cash_out m s = (s, .err .alreadyCrashed)
      ∧ cash_out m2 t
          = ({ t with bet := some { b2 with status := .cashed_out,
                                            cashOutMult := some m2,
                                            payout := b2.amount * m2 },
                      balance := t.balance + b2.amount * m2,
                      winTx := t.winTx + 1 }, .ok (b2.amount * m2)) := by
  constructor
  · simp [cash_out, hfly, hb, hact, hm, hc, hgt]
  · simp [cash_out, hfly2, hb2, hact2, hm2]

theorem cash_out_guard_requires_stored_multiplier_witness :
    (⟨.flying, some 2, some ⟨20, none, .active, none, 0⟩, 80, 1, 0⟩ : GameState).roundStatus
        = .flying
      ∧ (cash_out 5 ⟨.flying, some 2, some ⟨20, none, .active, none, 0⟩, 80, 1, 0⟩
            = (⟨.flying, some 2, some ⟨20, none, .active, none, 0⟩, 80, 1, 0⟩,
               .err .alreadyCrashed)
          ∧ cash_out 3 ⟨.flying, none, some ⟨10, none, .active, none, 0⟩, 90, 1, 0⟩
              = (⟨.flying, none,
                  some ⟨10, none, .cashed_out, some 3, (10:ℚ) * 3⟩, 90 + (10:ℚ) * 3, 1, 1⟩,
                 .ok ((10:ℚ) * 3))) :=
  ⟨rfl, cash_out_guard_requires_stored_multiplier
    ⟨.flying, some 2, some ⟨20, none, .active, none, 0⟩, 80, 1, 0⟩
    ⟨.flying, none, some ⟨10, none, .active, none, 0⟩, 90, 1, 0⟩
    ⟨20, none, .active, none, 0⟩ ⟨10, none, .active, none, 0⟩
    2 5 3 rfl rfl rfl rfl (by norm_num) (by norm_num) rfl rfl rfl rfl⟩

/-- C5 failing input: `cash_out` converts the client-supplied multiplier
with `Decimal(str(data.get('multiplier', 1.0)))` and never checks it
against the 1.00 minimum that the `cash_out_multiplier` field's validator
declares, and the crash guard does not fire for values below the stored
multiplier.  A request with multiplier -5 on a 20.00 stake therefore
commits `payout = -100.00` and drives a 80.00 wallet to -20.00, violating
the non-negative-balance invariant declared by `Wallet.balance`'s
`MinValueValidator(0.00)`. -/
theorem negative_multiplier_drives_balance_negative :
    ((cash_out (-5) (start_flying_phase
        ((place_bet 20 none ⟨.betting, none, none, 100, 0, 0⟩).1))).1).balance = -20
      ∧ ¬ (0 ≤ ((cash_out (-5) (start_flying_phase
            ((place_bet 20 none ⟨.betting, none, none, 100, 0, 0⟩).1))).1).balance) := by
  norm_num [place_bet, cash_out, start_flying_phase]

/-- C6 counterexample: `place_bet` never reads the configured
`GameSettings` limits; its only amount checks are the hardcoded
`bet_amount < Decimal('1.00')` and the balance.  A 20000.00 stake, above
the configured default maximum of 10000.00, is accepted: the bet is
created and the wallet debited. -/
theorem max_bet_limit_not_enforced :
    (20000:ℚ) > defaultMaxBet
      ∧ (place_bet 20000 none ⟨.betting, none, none, 50000, 0, 0⟩).2 = .ok 20000
      ∧ ((place_bet 20000 none ⟨.betting, none, none, 50000, 0, 0⟩).1).balance = 30000
      ∧ betSt ((place_bet 20000 none ⟨.betting, none, none, 50000, 0, 0⟩).1)
          = some .active := by
  refine ⟨by norm_num [defaultMaxBet], ?_, ?_, ?_⟩ <;> norm_num [place_bet, betSt]

/-- C6 amended: `place_bet` rejects, synchronously and without creating a
bet, debit or transaction, exactly the amounts below the hardcoded KES
1.00 minimum (besides its balance/phase/duplicate checks); the configured
`GameSettings` minimum and maximum are not consulted, so any amount with
`1.00 ≤ amount ≤ balance` is accepted on a betting round with no existing
bet. -/
theorem place_bet_enforces_hardcoded_min_and_balance_only
    (amount amount2 : ℚ) (auto : Option ℚ) (s t : GameState)
    (h1 : 1 ≤ amount) (h2 : amount ≤ s.balance) (h3 : s.roundStatus = .betting)
    (h4 : s.bet = none) (h5 : amount2 < 1) :
    (place_bet amount auto s).2 = .ok amount
      ∧ ((place_bet amount auto s).1).balance = s.balance - amount
      ∧ ((place_bet amount auto s).1).betTx = s.betTx + 1
      ∧ betSt ((place_bet amount auto s).1) = some .active
      ∧ place_bet amount2 auto t = (t, .err .minBet) := by
  have h1' : ¬ amount < 1 := not_lt.mpr h1
  have h2' : ¬ s.balance < amount := not_lt.mpr h2
  refine ⟨?_, ?_, ?_, ?_, ?_⟩ <;> simp [place_bet, betSt, h1', h2', h3, h4, h5]

theorem place_bet_enforces_hardcoded_min_and_balance_only_witness :
    (1:ℚ) ≤ 20 ∧ (20:ℚ) ≤ 100 ∧ (1:ℚ)/2 < 1
      ∧ ((place_bet 20 none ⟨.betting, none, none, 100, 0, 0⟩).2 = .ok 20
          ∧ ((place_bet 20 none ⟨.betting, none, none, 100, 0, 0⟩).1).balance = (100:ℚ) - 20
          ∧ ((place_bet 20 none ⟨.betting, none, none, 100, 0, 0⟩).1).betTx = 0 + 1
          ∧ betSt ((place_bet 20 none ⟨.betting, none, none, 100, 0, 0⟩).1) = some .active
          ∧ place_bet (1/2) none ⟨.betting, none, none, 100, 0, 0⟩
              = (⟨.betting, none, none, 100, 0, 0⟩, .err .minBet)) :=
  ⟨by norm_num, by norm_num, by norm_num,
   place_bet_enforces_hardcoded_min_and_balance_only 20 (1/2) none
     ⟨.betting, none, none, 100, 0, 0⟩ ⟨.betting, none, none, 100, 0, 0⟩
     (by norm_num) (by norm_num) rfl rfl (by norm_num)⟩

/-- C2: when the round crashes, a bet still active whose `auto_cash_out_at`
is set and `≤` the crash multiplier (boundary inclusive) is settled as a
win at `auto_cash_out_at` — wallet credited by `amount * auto_cash_out_at`
and a `win` transaction recorded — and any other still-active bet becomes
`lost` with its payout left at 0.  The first three conjuncts state this for
the standalone `crash_game` sweep; the last two state the same outcomes for
the `GameEngine` path, where the final `_process_auto_cashouts` tick runs
at exactly the crash multiplier before `_crash_game` marks the remaining
active bets lost. -/
theorem crash_sweep_settles_by_auto_threshold
    (s : GameState) (b : Bet) (c a : ℚ)
    (hb : s.bet = some b) (hact : b.status = .active) (hm : s.multiplier = some c) :
    (b.autoAt = some a → a ≠ 0 → a ≤ c →
        crash_game s
          = { s with bet := some { b with status := .won, cashOutMult := some a,
                                          payout := b.amount * a },
                     balance := s.balance + b.amount * a,
                     winTx := s.winTx + 1,
                     roundStatus := .completed })
      ∧ (b.autoAt = none →
          crash_game s
            = { s with bet := some { b with status := .lost },
                       roundStatus := .completed })
      ∧ (b.autoAt = some a → c < a →
          crash_game s
            = { s with bet := some { b with status := .lost },
                       roundStatus := .completed })
      ∧ (b.autoAt = some a → a ≤ c →
          engine_crash_game c (process_auto_cashouts c s)
            = { s with bet := some { b with status := .won, cashOutMult := some a,
                                            payout := b.amount * a },
                       balance := s.balance + b.amount * a,
                       winTx := s.winTx + 1,
                       multiplier := some c,
                       roundStatus := .completed })
      ∧ (b.autoAt = none →
          engine_crash_game c (process_auto_cashouts c s)
            = { s with bet := some { b with status := .lost },
                       multiplier := some c,
                       roundStatus := .completed }) := by
  refine ⟨?_, ?_, ?_, ?_, ?_⟩
  · intro ha h0 hle
    simp [crash_game, hb, hact, hm, ha, h0, hle]
  · intro ha
    simp [crash_game, hb, hact, hm, ha]
  · intro ha hgt
    have : ¬ (a ≠ 0 ∧ a ≤ c) := fun h => absurd hgt (not_lt.mpr h.2)
    simp [crash_game, hb, hact, hm, ha, this]
  · intro ha hle
    simp [process_auto_cashouts, engine_crash_game, hb, hact, ha, hle]
  · intro ha
    simp [process_auto_cashouts, engine_crash_game, hb, hact, ha]

theorem crash_sweep_settles_by_auto_threshold_witness :
    (⟨20, some (5/2), .active, none, 0⟩ : Bet).status = .active
      ∧ ((((⟨20, some (5/2), .active, none, 0⟩ : Bet).autoAt = some (5/2) → (5:ℚ)/2 ≠ 0
            → (5:ℚ)/2 ≤ 5/2 →
            crash_game ⟨.crashed, some (5/2), some ⟨20, some (5/2), .active, none, 0⟩, 80, 1, 0⟩
              = { (⟨.crashed, some (5/2), some ⟨20, some (5/2), .active, none, 0⟩, 80, 1, 0⟩ : GameState) with
                  bet := some { (⟨20, some (5/2), .active, none, 0⟩ : Bet) with
                                status := .won, cashOutMult := some (5/2),
                                payout := (20:ℚ) * (5/2) },
                  balance := 80 + (20:ℚ) * (5/2),
                  winTx := 0 + 1,
                  roundStatus := .completed })
          ∧ ((⟨20, some (5/2), .active, none, 0⟩ : Bet).autoAt = none →
              crash_game ⟨.crashed, some (5/2), some ⟨20, some (5/2), .active, none, 0⟩, 80, 1, 0⟩
                = { (⟨.crashed, some (5/2), some ⟨20, some (5/2), .active, none, 0⟩, 80, 1, 0⟩ : GameState) with
                    bet := some { (⟨20, some (5/2), .active, none, 0⟩ : Bet) with status := .lost },
                    roundStatus := .completed })
          ∧ ((⟨20, some (5/2), .active, none, 0⟩ : Bet).autoAt = some (5/2) → (5:ℚ)/2 < 5/2 →
              crash_game ⟨.crashed, some (5/2), some ⟨20, some (5/2), .active, none, 0⟩, 80, 1, 0⟩
                = { (⟨.crashed, some (5/2), some ⟨20, some (5/2), .active, none, 0⟩, 80, 1, 0⟩ : GameState) with
                    bet := some { (⟨20, some (5/2), .active, none, 0⟩ : Bet) with status := .lost },
                    roundStatus := .completed })
          ∧ ((⟨20, some (5/2), .active, none, 0⟩ : Bet).autoAt = some (5/2) → (5:ℚ)/2 ≤ 5/2 →
              engine_crash_game (5/2) (process_auto_cashouts (5/2)
                  ⟨.crashed, some (5/2), some ⟨20, some (5/2), .active, none, 0⟩, 80, 1, 0⟩)
                = { (⟨.crashed, some (5/2), some ⟨20, some (5/2), .active, none, 0⟩, 80, 1, 0⟩ : GameState) with
                    bet := some { (⟨20, some (5/2), .active, none, 0⟩ : Bet) with
                                  status := .won, cashOutMult := some (5/2),
                                  payout := (20:ℚ) * (5/2) },
                    balance := 80 + (20:ℚ) * (5/2),
                    winTx := 0 + 1,
                    multiplier := some (5/2),
                    roundStatus := .completed })
          ∧ ((⟨20, some (5/2), .active, none, 0⟩ : Bet).autoAt = none →
              engine_crash_game (5/2) (process_auto_cashouts (5/2)
                  ⟨.crashed, some (5/2), some ⟨20, some (5/2), .active, none, 0⟩, 80, 1, 0⟩)
                = { (⟨.crashed, some (5/2), some ⟨20, some (5/2), .active, none, 0⟩, 80, 1, 0⟩ : GameState) with
                    bet := some { (⟨20, some (5/2), .active, none, 0⟩ : Bet) with status := .lost },
                    multiplier := some (5/2),
                    roundStatus := .completed }))) :=
  ⟨rfl, crash_sweep_settles_by_auto_threshold
    ⟨.crashed, some (5/2), some ⟨20, some (5/2), .active, none, 0⟩, 80, 1, 0⟩
    ⟨20, some (5/2), .active, none, 0⟩ (5/2) (5/2) rfl rfl rfl⟩

/-- C10: both crash sweeps settle a losing bet (no auto-cashout threshold
reached) by setting its status to `lost` and leaving every other modelled
component alone: the payout stays 0, the wallet balance is untouched, and
no `bet` or `win` transaction is recorded, so the only balance effect of a
losing bet is the stake debit made at placement. -/
theorem lost_bet_settles_with_frame
    (s : GameState) (b : Bet) (c c2 : ℚ)
    (hb : s.bet = some b) (hact : b.status = .active) (hm : s.multiplier = some c)
    (hauto : ∀ a, b.autoAt = some a → c < a) (hpay : b.payout = 0) :
    crash_game s
        = { s with bet := some { b with status := .lost }, roundStatus := .completed }
      ∧ betSt (crash_game s) = some .lost
      ∧ (crash_game s).bet.map Bet.payout = some 0
      ∧ (crash_game s).balance = s.balance
      ∧ (crash_game s).winTx = s.winTx
      ∧ (crash_game s).betTx = s.betTx
      ∧ engine_crash_game c2 s
          = { s with multiplier := some c2, bet := some { b with status := .lost },
                     roundStatus := .completed } := by
  have hmain : crash_game s
      = { s with bet := some { b with status := .lost }, roundStatus := .completed } := by
    rcases ha : b.autoAt with _ | a
    · simp [crash_game, hb, hact, hm, ha]
    · have hno : ¬ (a ≠ 0 ∧ a ≤ c) := fun h => absurd (hauto a ha) (not_lt.mpr h.2)
      simp [crash_game, hb, hact, hm, ha, hno]
  refine ⟨hmain, ?_, ?_, ?_, ?_, ?_, ?_⟩
  · rw [hmain]; simp [betSt]
  · rw [hmain]; simp [hpay]
  · rw [hmain]
  · rw [hmain]
  · rw [hmain]
  · simp [engine_crash_game, hb, hact]

theorem lost_bet_settles_with_frame_witness :
    (⟨20, none, .active, none, 0⟩ : Bet).status = .active
      ∧ (⟨20, none, .active, none, 0⟩ : Bet).payout = 0
      ∧ (crash_game ⟨.flying, some (17/5), some ⟨20, none, .active, none, 0⟩, 80, 1, 0⟩
            = { (⟨.flying, some (17/5), some ⟨20, none, .active, none, 0⟩, 80, 1, 0⟩ : GameState) with
                bet := some { (⟨20, none, .active, none, 0⟩ : Bet) with status := .lost },
                roundStatus := .completed }
          ∧ betSt (crash_game ⟨.flying, some (17/5), some ⟨20, none, .active, none, 0⟩, 80, 1, 0⟩)
              = some .lost
          ∧ (crash_game ⟨.flying, some (17/5), some ⟨20, none, .active, none, 0⟩, 80, 1, 0⟩).bet.map
              Bet.payout = some 0
          ∧ (crash_game ⟨.flying, some (17/5), some ⟨20, none, .active, none, 0⟩, 80, 1, 0⟩).balance
              = (⟨.flying, some (17/5), some ⟨20, none, .active, none, 0⟩, 80, 1, 0⟩ : GameState).balance
          ∧ (crash_game ⟨.flying, some (17/5), some ⟨20, none, .active, none, 0⟩, 80, 1, 0⟩).winTx
              = (⟨.flying, some (17/5), some ⟨20, none, .active, none, 0⟩, 80, 1, 0⟩ : GameState).winTx
          ∧ (crash_game ⟨.flying, some (17/5), some ⟨20, none, .active, none, 0⟩, 80, 1, 0⟩).betTx
              = (⟨.flying, some (17/5), some ⟨20, none, .active, none, 0⟩, 80, 1, 0⟩ : GameState).betTx
          ∧ engine_crash_game (17/5) ⟨.flying, some (17/5), some ⟨20, none, .active, none, 0⟩, 80, 1, 0⟩
              = { (⟨.flying, some (17/5), some ⟨20, none, .active, none, 0⟩, 80, 1, 0⟩ : GameState) with
                  multiplier := some (17/5),
                  bet := some { (⟨20, none, .active, none, 0⟩ : Bet) with status := .lost },
                  roundStatus := .completed }) :=
  ⟨rfl, rfl, lost_bet_settles_with_frame
    ⟨.flying, some (17/5), some ⟨20, none, .active, none, 0⟩, 80, 1, 0⟩
    ⟨20, none, .active, none, 0⟩ (17/5) (17/5) rfl rfl rfl
    (fun _ h => Option.noConfusion h) rfl⟩

lemma cash_out_inv (m : ℚ) (s : GameState) (h : SettleInv s) :
    SettleInv (cash_out m s).1 := by
  obtain ⟨rs, mult, bet, bal, btx, wtx⟩ := s
  obtain ⟨h1, h2, h3, h4⟩ := h
  rcases bet with _ | ⟨am, au, st, cm, po⟩
  · cases rs <;> simp_all [cash_out, SettleInv, betSt]
  · rcases mult with _ | c <;> cases st <;> cases rs <;>
      simp_all [cash_out, SettleInv, betSt] <;> split_ifs <;> simp_all

lemma tick_inv (m : ℚ) (s : GameState) (h : SettleInv s) :
    SettleInv (process_auto_cashouts m s) := by
  obtain ⟨rs, mult, bet, bal, btx, wtx⟩ := s
  obtain ⟨h1, h2, h3, h4⟩ := h
  rcases bet with _ | ⟨am, au, st, cm, po⟩
  · simp_all [process_auto_cashouts, SettleInv, betSt]
  · rcases au with _ | a <;> cases st <;>
      simp_all [process_auto_cashouts, SettleInv, betSt] <;> split_ifs <;> simp_all

lemma crash_game_inv (s : GameState) (h : SettleInv s) :
    SettleInv (crash_game s) := by
  obtain ⟨rs, mult, bet, bal, btx, wtx⟩ := s
  obtain ⟨h1, h2, h3, h4⟩ := h
  rcases bet with _ | ⟨am, au, st, cm, po⟩
  · simp_all [crash_game, SettleInv, betSt]
  · rcases au with _ | a <;> rcases mult with _ | c <;> cases st <;>
      simp_all [crash_game, SettleInv, betSt] <;> split_ifs <;> simp_all

lemma engine_crash_game_inv (c : ℚ) (s : GameState) (h : SettleInv s) :
    SettleInv (engine_crash_game c s) := by
  obtain ⟨rs, mult, bet, bal, btx, wtx⟩ := s
  obtain ⟨h1, h2, h3, h4⟩ := h
  rcases bet with _ | ⟨am, au, st, cm, po⟩
  · simp_all [engine_crash_game, SettleInv, betSt]
  · cases st <;> simp_all [engine_crash_game, SettleInv, betSt]

lemma applySettleOp_inv (op : SettleOp) (s : GameState) (h : SettleInv s) :
    SettleInv (applySettleOp op s) := by
  cases op with
  | manual m => exact cash_out_inv m s h
  | tick m => exact tick_inv m s h
  | sweep => exact crash_game_inv s h
  | engineSweep c => exact engine_crash_game_inv c s h

lemma runSettleOps_inv (ops : List SettleOp) (s : GameState) (h : SettleInv s) :
    SettleInv (runSettleOps ops s) := by
  induction ops generalizing s with
  | nil => exact h
  | cons op rest ih => exact ih _ (applySettleOp_inv op s h)

lemma cash_out_nonactive (m : ℚ) (t : GameState) (h : betSt t ≠ some .active) :
    (cash_out m t).1 = t ∧ ((cash_out m t).2).isErr = true := by
  obtain ⟨rs, mult, bet, bal, btx, wtx⟩ := t
  rcases bet with _ | ⟨am, au, st, cm, po⟩
  · cases rs <;> simp [cash_out, Res.isErr]
  · cases st <;> cases rs <;> simp_all [cash_out, betSt, Res.isErr]

lemma applySettleOp_stable (op : SettleOp) (t : GameState)
    (h : betSt t ≠ some .active) :
    betSt (applySettleOp op t) = betSt t := by
  obtain ⟨rs, mult, bet, bal, btx, wtx⟩ := t
  cases op with
  | manual m =>
    have := (cash_out_nonactive m ⟨rs, mult, bet, bal, btx, wtx⟩ h).1
    rw [applySettleOp, this]
  | tick m =>
    rcases bet with _ | ⟨am, au, st, cm, po⟩
    · rfl
    · rcases au with _ | a <;> cases st <;>
        simp_all [applySettleOp, process_auto_cashouts, betSt]
  | sweep =>
    rcases bet with _ | ⟨am, au, st, cm, po⟩
    · rfl
    · rcases au with _ | a <;> rcases mult with _ | c <;> cases st <;>
        simp_all [applySettleOp, crash_game, betSt]
  | engineSweep c =>
    rcases bet with _ | ⟨am, au, st, cm, po⟩
    · rfl
    · cases st <;> simp_all [applySettleOp, engine_crash_game, betSt]

/-- C1: starting from a placed, still-active bet with no `win` credit, any
sequence of manual cash-out calls, auto-cashout ticks, and crash sweeps
(standalone `crash_game` or `GameEngine._crash_game`) commits at most one
settlement — wallet credit plus `win` transaction; the bet only ever
occupies one of {active, won, lost, cashed_out}; once the round's status
is `completed` the bet is no longer `active`; a manual cash-out that
observes a non-active bet is a no-op returning a rejection; and no
settlement operation changes the status of a bet that already left
`active`, so the transition out of `active` happens at most once and into
a single terminal state. -/
theorem bet_settles_exactly_once
    (ops : List SettleOp) (s0 t : GameState) (m : ℚ) (op : SettleOp)
    (h1 : betSt s0 = some .active) (h2 : s0.winTx = 0)
    (h3 : s0.roundStatus ≠ .completed) (h4 : betSt t ≠ some .active) :
    (runSettleOps ops s0).winTx ≤ 1
      ∧ ((runSettleOps ops s0).roundStatus = .completed
          → betSt (runSettleOps ops s0) ≠ some .active)
      ∧ (betSt (runSettleOps ops s0) = some .active
          ∨ betSt (runSettleOps ops s0) = some .won
          ∨ betSt (runSettleOps ops s0) = some .lost
          ∨ betSt (runSettleOps ops s0) = some .cashed_out)
      ∧ (cash_out m t).1 = t
      ∧ ((cash_out m t).2).isErr = true
      ∧ betSt (applySettleOp op t) = betSt t := by
  have hinv : SettleInv s0 := ⟨by omega, fun _ => h2, fun hc => absurd hc h3, Or.inl h1⟩
  obtain ⟨i1, i2, i3, i4⟩ := runSettleOps_inv ops s0 hinv
  obtain ⟨e1, e2⟩ := cash_out_nonactive m t h4
  exact ⟨i1, i3, i4, e1, e2, applySettleOp_stable op t h4⟩

theorem bet_settles_exactly_once_witness :
    betSt ⟨.flying, some 3, some ⟨20, some 2, .active, none, 0⟩, 80, 1, 0⟩ = some .active
      ∧ (⟨.flying, some 3, some ⟨20, some 2, .active, none, 0⟩, 80, 1, 0⟩ : GameState).winTx = 0
      ∧ (⟨.flying, some 3, some ⟨20, some 2, .active, none, 0⟩, 80, 1, 0⟩ : GameState).roundStatus
          ≠ .completed
      ∧ betSt ⟨.completed, some 3, some ⟨20, some 2, .won, some 2, 40⟩, 120, 1, 1⟩
          ≠ some .active
      ∧ ((runSettleOps [.tick 2, .manual 3, .sweep]
            ⟨.flying, some 3, some ⟨20, some 2, .active, none, 0⟩, 80, 1, 0⟩).winTx ≤ 1
          ∧ ((runSettleOps [.tick 2, .manual 3, .sweep]
                ⟨.flying, some 3, some ⟨20, some 2, .active, none, 0⟩, 80, 1, 0⟩).roundStatus
                  = .completed
              → betSt (runSettleOps [.tick 2, .manual 3, .sweep]
                  ⟨.flying, some 3, some ⟨20, some 2, .active, none, 0⟩, 80, 1, 0⟩)
                  ≠ some .active)
          ∧ (betSt (runSettleOps [.tick 2, .manual 3, .sweep]
                ⟨.flying, some 3, some ⟨20, some 2, .active, none, 0⟩, 80, 1, 0⟩)
                  = some .active
              ∨ betSt (runSettleOps [.tick 2, .manual 3, .sweep]
                  ⟨.flying, some 3, some ⟨20, some 2, .active, none, 0⟩, 80, 1, 0⟩)
                  = some .won
              ∨ betSt (runSettleOps [.tick 2, .manual 3, .sweep]
                  ⟨.flying, some 3, some ⟨20, some 2, .active, none, 0⟩, 80, 1, 0⟩)
                  = some .lost
              ∨ betSt (runSettleOps [.tick 2, .manual 3, .sweep]
                  ⟨.flying, some 3, some ⟨20, some 2, .active, none, 0⟩, 80, 1, 0⟩)
                  = some .cashed_out)
          ∧ (cash_out 4 ⟨.completed, some 3, some ⟨20, some 2, .won, some 2, 40⟩, 120, 1, 1⟩).1
              = ⟨.completed, some 3, some ⟨20, some 2, .won, some 2, 40⟩, 120, 1, 1⟩
          ∧ ((cash_out 4
                ⟨.completed, some 3, some ⟨20, some 2, .won, some 2, 40⟩, 120, 1, 1⟩).2).isErr
              = true
          ∧ betSt (applySettleOp .sweep
                ⟨.completed, some 3, some ⟨20, some 2, .won, some 2, 40⟩, 120, 1, 1⟩)
              = betSt ⟨.completed, some 3, some ⟨20, some 2, .won, some 2, 40⟩, 120, 1, 1⟩) :=
  ⟨rfl, rfl, by simp, by simp [betSt],
   bet_settles_exactly_once [.tick 2, .manual 3, .sweep]
     ⟨.flying, some 3, some ⟨20, some 2, .active, none, 0⟩, 80, 1, 0⟩
     ⟨.completed, some 3, some ⟨20, some 2, .won, some 2, 40⟩, 120, 1, 1⟩
     4 .sweep rfl rfl (by simp) (by simp [betSt])⟩

end Betmoto
